import Mathlib

/-!
Verification of the review-generation pipeline of the AI GitHub PR Reviewer.

The development shallowly embeds the core JavaScript modules:
* `lib/ollama-llm.js` — availability probe (`checkOllamaStatus`), prompt
  builder (`buildReviewPrompt`), dual-path review generator
  (`generateReview` / `generateReviewCLI`);
* the error-classification module (`ErrorHandler.handle`).

JavaScript strings are modelled as `List Char`; values that may be
`undefined` are modelled with `Option`; the outcome of each asynchronous
external call (HTTP request, subprocess) is passed in explicitly as an
`Except`/structure parameter, so each function under verification is the
pure continuation the source applies to that outcome.  A JavaScript
`TypeError` raised by reading a property of `undefined` is modelled by the
`Except JsThrow` result type of the classifier.
-/

/-- JavaScript strings, modelled as lists of UTF-16-ish characters. -/
abbrev Str := List Char

/-- The double-quote character. -/
def dq : Char := Char.ofNat 34

/-- The backtick character. -/
def bq : Char := Char.ofNat 96

/-- The backslash character. -/
def bs : Char := Char.ofNat 92

/-- JavaScript `x || dflt` for a possibly-undefined string `x`:
`undefined` and the empty string are falsy. -/
def jsOr (x : Option Str) (dflt : Str) : Str :=
  match x with
  | some s => if s = [] then dflt else s
  | none => dflt

/-- Whitespace for JavaScript `String.prototype.trim`. -/
def jsWhitespace (c : Char) : Bool :=
  c == ' ' || c == '\n' || c == '\t' || c == '\r'

/-- JavaScript `s.trim()`: strip whitespace from both ends. -/
def jsTrim (s : Str) : Str :=
  ((s.dropWhile jsWhitespace).reverse.dropWhile jsWhitespace).reverse

/-- JavaScript `s.includes(p)`: decide whether `p` occurs as a contiguous
substring of `s` (here: whether `p` is an infix of `l`). -/
def hasSub (p : Str) : Str → Bool
  | [] => p.isPrefixOf []
  | a :: t => p.isPrefixOf (a :: t) || hasSub p t

/-! ## Prompt builder (`OllamaLLM.buildReviewPrompt`) -/

/-- The pull-request context destructured by `buildReviewPrompt`:
`const { title = '', description = '', author = '' } = prContext`. -/
structure PrContext where
  title : Option Str
  description : Option Str
  author : Option Str
deriving DecidableEq

/-- Template text before the interpolated title. -/
def tmplA : Str :=
  ("You are a senior software engineer conducting a code review. Analyze this GitHub Pull Request and provide a comprehensive review.\n\n**Pull Request Context:**\n- Title: ").data

/-- Template text between title and author. -/
def tmplB : Str := ("\n- Author: ").data

/-- Template text between author and description. -/
def tmplC : Str := ("\n- Description: ").data

/-- Template text between description and the fenced diff. -/
def tmplD : Str := ("\n\n**Code Changes:**\n\x60\x60\x60diff\n").data

/-- Template text after the fenced diff. -/
def tmplE : Str :=
  ("\n\x60\x60\x60\n\n**Review Guidelines:**\n1. Identify potential bugs, security issues, or performance problems\n2. Check for code quality and best practices\n3. Look for proper error handling and edge cases\n4. Evaluate code readability and maintainability\n5. Suggest improvements or optimizations\n\n**Please provide your review in the following format:**\n\n## 🔍 Code Review Summary\n\n### ✅ Positive Aspects\n- [List what\x27s done well]\n\n### ⚠️ Issues Found\n- [List any problems, bugs, or concerns]\n\n### 💡 Suggestions\n- [List improvements and recommendations]\n\n### 🎯 Overall Assessment\n[Brief overall evaluation and recommendation]\n\nKeep your review constructive, specific, and actionable. Focus on the most important issues first.").data

/-- The truncation marker appended to an oversized diff. -/
def truncMarkerStr : Str := ("\n... (truncated)").data

/-- The embedded-diff expression of the template:
`diffText.length > 8000 ? diffText.substring(0, 8000) + '\n... (truncated)' : diffText`. -/
def embeddedDiff (diffText : Str) : Str :=
  if diffText.length > 8000 then diffText.take 8000 ++ truncMarkerStr else diffText

/-- `OllamaLLM.buildReviewPrompt(diffText, prContext)`. -/
def buildReviewPrompt (diffText : Str) (prContext : PrContext) : Str :=
  tmplA ++ prContext.title.getD [] ++
    tmplB ++ prContext.author.getD [] ++
    tmplC ++ prContext.description.getD [] ++
    tmplD ++ embeddedDiff diffText ++ tmplE

/-! ## Review generator (`OllamaLLM.generateReview` / `generateReviewCLI`) -/

/-- The normalized result shape `{success, review?, model?, method?, error?}`
shared by both generation paths.  A JavaScript property that is absent (or
set to `undefined`) is `none`. -/
structure ReviewResult where
  success : Bool
  review : Option Str
  model : Option Str
  method : Option Str
  error : Option Str
deriving DecidableEq

/-- A JavaScript error value, with the loosely-shaped optional properties
the pipeline sniffs (`message`, `code`, `response`, `address`, `port`). -/
structure UpstreamData where
  message : Option Str
deriving DecidableEq

/-- The `error.response` object of an upstream HTTP failure. -/
structure UpstreamResponse where
  status : Option Nat
  data : Option UpstreamData
deriving DecidableEq

/-- A caught JavaScript error object. -/
structure JsError where
  message : Option Str
  code : Option Str
  response : Option UpstreamResponse
  address : Option Str
  port : Option Nat
deriving DecidableEq

/-- Body of a `POST /api/generate` 2xx response: `response.data.response`
may be absent. -/
structure GenerateData where
  response : Option Str
deriving DecidableEq

/-- A resolved axios reply for the structured generation call; `data` may be
absent/non-object. -/
structure GenerateResponse where
  data : Option GenerateData
deriving DecidableEq

/-- Resolved `execAsync` value: captured standard output and error streams. -/
structure ExecResult where
  stdout : Str
  stderr : Str
deriving DecidableEq

/-- Outcome of the `ollama run` subprocess: resolves with the two streams, or
rejects (non-zero exit, spawn failure, exceeded buffer). -/
abbrev ExecOutcome := Except JsError ExecResult

/-- `OllamaLLM.generateReviewCLI`, as the pure continuation applied to the
subprocess outcome: `if (stderr && !stdout) fail(stderr)` else succeed with
trimmed stdout and `method: 'CLI'`; a rejection is caught and returned as
`{success: false, error: error.message}`. -/
def generateReviewCLI (model : Str) (exec : ExecOutcome) : ReviewResult :=
  match exec with
  | .ok res =>
    if res.stderr ≠ [] ∧ res.stdout = [] then
      { success := false, review := none, model := none, method := none,
        error := some res.stderr }
    else
      { success := true, review := some (jsTrim res.stdout),
        model := some model, method := some (("CLI").data), error := none }
  | .error e =>
    { success := false, review := none, model := none, method := none,
      error := e.message }

/-- The `{success: false, error: 'No response from Ollama'}` result of the
primary path's else-branch. -/
def noOllamaResponse : ReviewResult :=
  { success := false, review := none, model := none, method := none,
    error := some (("No response from Ollama").data) }

/-- `OllamaLLM.generateReview`, as the pure continuation applied to the
outcomes of the structured HTTP call and (if reached) the subprocess:
`if (response.data && response.data.response)` return the trimmed text with
the model name (and no `method` property); otherwise return
`noOllamaResponse`; a rejected HTTP call is caught and routed to
`generateReviewCLI`. -/
def generateReview (model : Str) (api : Except JsError GenerateResponse)
    (exec : ExecOutcome) : ReviewResult :=
  match api with
  | .ok response =>
    match response.data with
    | some body =>
      match body.response with
      | some r =>
        if r ≠ [] then
          { success := true, review := some (jsTrim r), model := some model,
            method := none, error := none }
        else noOllamaResponse
      | none => noOllamaResponse
    | none => noOllamaResponse
  | .error _ => generateReviewCLI model exec

/-- The escaping of `generateReviewCLI`, first replace:
`prompt.replace(/"/g, '\\"')`. -/
def replaceDq : Str → Str
  | [] => []
  | a :: t => (if a = dq then [bs, dq] else [a]) ++ replaceDq t

/-- The escaping of `generateReviewCLI`, second replace:
`.replace(/\x60/g, '\\\x60')`. -/
def replaceBq : Str → Str
  | [] => []
  | a :: t => (if a = bq then [bs, bq] else [a]) ++ replaceBq t

/-- `escapedPrompt` of `generateReviewCLI`: the two replacements in source
order. -/
def escapedPrompt (prompt : Str) : Str := replaceBq (replaceDq prompt)

/-- The shell command string of `generateReviewCLI`:
`ollama run ${model} "${escapedPrompt}"`. -/
def cliCommand (model prompt : Str) : Str :=
  ("ollama run ").data ++ model ++ (" ").data ++ [dq] ++
    escapedPrompt prompt ++ [dq]

/-- Modelled from the spec's description of the escaping (the claim's
single-pass reading): only double quotes and backticks are escaped, every
other character maps to itself. -/
def escSpecChar (c : Char) : Str :=
  if c = dq then [bs, dq] else if c = bq then [bs, bq] else [c]

/-- Single-pass escaping following the spec's words, to be compared with the
source's sequential `escapedPrompt`. -/
def escapeSpec : Str → Str
  | [] => []
  | a :: t => escSpecChar a ++ escapeSpec t

/-! ## Availability probe (`OllamaLLM.checkOllamaStatus`) -/

/-- One entry of the catalog reply `{models: [{name}, ...]}`. -/
structure OllamaModel where
  name : Str
deriving DecidableEq

/-- `response.data` of the catalog reply; `models` may be absent. -/
structure TagsData where
  models : Option (List OllamaModel)
deriving DecidableEq

/-- A resolved axios reply for `GET /api/tags`. -/
structure TagsResponse where
  data : TagsData
deriving DecidableEq

/-- The `ModelStatus` value returned by the probe. -/
structure OllamaStatus where
  running : Bool
  modelAvailable : Bool
  availableModels : Option (List Str)
  error : Option Str
deriving DecidableEq

/-- `this.model.split(':')[0]`: the configured model's base name — the
characters before the first ':' (the whole string when there is none). -/
def baseName (s : Str) : Str := s.takeWhile (· ≠ ':')

/-- `OllamaLLM.checkOllamaStatus`, as the pure continuation applied to the
catalog-probe outcome.  On success `modelAvailable` is
`models.some(m => m.name.includes(this.model.split(':')[0]))`; a rejection is
caught and recovered into `{running: false, modelAvailable: false, error}`. -/
def checkOllamaStatus (model : Str) (probe : Except JsError TagsResponse) :
    OllamaStatus :=
  match probe with
  | .ok response =>
    let models := response.data.models.getD []
    { running := true,
      modelAvailable := models.any (fun m => hasSub (baseName model) m.name),
      availableModels := some (models.map (fun m => m.name)),
      error := none }
  | .error e =>
    { running := false, modelAvailable := false, availableModels := none,
      error := e.message }

/-! ## Error classifier (`ErrorHandler.handle`) -/

/-- The fixed error-type tags of `ErrorHandler`. -/
inductive ErrType where
  | GITHUB_AUTH
  | OLLAMA_DOWN
  | MODEL_MISSING
  | RATE_LIMIT
  | INVALID_REPO
  | INVALID_PR
  | NETWORK_ERROR
  | UNKNOWN_ERROR
deriving DecidableEq

/-- The `ClassifiedError` shape `{type, message, suggestion}`. -/
structure ClassifiedError where
  type : ErrType
  message : Str
  suggestion : Str
deriving DecidableEq

/-- A JavaScript `TypeError` thrown by reading a property of `undefined`. -/
inductive JsThrow where
  | typeError
deriving DecidableEq

/-- `ErrorHandler.getSuggestion(type)`: the static remediation table, with
the `|| 'Please check the documentation for troubleshooting'` default for a
type outside the table. -/
def getSuggestion : ErrType → Str
  | .GITHUB_AUTH => ("Visit http://localhost:5000/auth/login to re-authenticate").data
  | .OLLAMA_DOWN => ("Run: ollama serve").data
  | .MODEL_MISSING => ("Run: ollama pull gemma:2b (or your preferred model)").data
  | .RATE_LIMIT => ("Wait for the rate limit to reset, or use a personal access token").data
  | .INVALID_REPO => ("Check the repository name and your access permissions").data
  | .INVALID_PR => ("Verify the pull request number exists").data
  | .NETWORK_ERROR => ("Check your internet connection and try again").data
  | .UNKNOWN_ERROR => ("Please check the documentation for troubleshooting").data

/-- `ErrorHandler.createError(type, message, suggestion = null)`:
`suggestion: suggestion || this.getSuggestion(type)`. -/
def createError (type : ErrType) (message : Str) (suggestion : Option Str) :
    ClassifiedError :=
  { type := type, message := message,
    suggestion := jsOr suggestion (getSuggestion type) }

/-- Truthiness of `data.message && data.message.includes('rate limit')`:
an absent or empty message is falsy. -/
def rateLimitCheck : Option Str → Bool
  | some m => !m.isEmpty && hasSub (("rate limit").data) m
  | none => false

/-- The `switch (status)` block of `ErrorHandler.handle`.  Reading
`data.message` when `error.response.data` is `undefined` throws a
`TypeError` (cases 403, 422 and the default case dereference `data`). -/
def handleStatus (status : Nat) (data : Option UpstreamData) :
    Except JsThrow ClassifiedError :=
  if status = 401 then
    .ok (createError .GITHUB_AUTH
      (("Invalid or expired GitHub token. Please re-authenticate.").data) none)
  else if status = 403 then
    match data with
    | none => .error .typeError
    | some d =>
      if rateLimitCheck d.message then
        .ok (createError .RATE_LIMIT
          (d.message.getD [] ++ ((". Try again later.").data)) none)
      else
        .ok (createError .INVALID_REPO
          (("Access denied or repository not found.").data) none)
  else if status = 404 then
    .ok (createError .INVALID_PR
      (("Pull request or repository not found.").data) none)
  else if status = 422 then
    match data with
    | none => .error .typeError
    | some d =>
      .ok (createError .INVALID_REPO
        (("GitHub API error: ").data ++ jsOr d.message (("Invalid request").data)) none)
  else
    match data with
    | none => .error .typeError
    | some d =>
      .ok (createError .NETWORK_ERROR
        (("GitHub API error (").data ++ (Nat.repr status).data ++ ("): ").data ++
          jsOr d.message (("Unknown error").data)) none)

/-- The status-less branches of `ErrorHandler.handle` (connection refusal,
DNS/reset, timeout, generic).  The short-circuit
`error.code === 'ECONNABORTED' || error.message.includes('timeout')`
dereferences `error.message`, throwing a `TypeError` when it is
`undefined`. -/
def handleNoStatus (error : JsError) : Except JsThrow ClassifiedError :=
  if error.code = some (("ECONNREFUSED").data) ∧
      error.address = some (("127.0.0.1").data) ∧ error.port = some 11434 then
    .ok (createError .OLLAMA_DOWN
      (("Ollama is not running. Start with: ollama serve").data) none)
  else if error.code = some (("ECONNREFUSED").data) ∧
      error.address = some (("127.0.0.1").data) ∧ error.port = some 5000 then
    .ok (createError .NETWORK_ERROR
      (("Server is not running. Start with: npm start").data) none)
  else if error.code = some (("ENOTFOUND").data) ∨
      error.code = some (("ECONNRESET").data) then
    .ok (createError .NETWORK_ERROR
      (("Network connection failed. Check your internet connection.").data) none)
  else if error.code = some (("ECONNABORTED").data) then
    .ok (createError .NETWORK_ERROR
      (("Request timed out. Please try again.").data) none)
  else
    match error.message with
    | none => .error .typeError
    | some m =>
      if hasSub (("timeout").data) m = true then
        .ok (createError .NETWORK_ERROR
          (("Request timed out. Please try again.").data) none)
      else
        .ok { type := .UNKNOWN_ERROR,
              message := jsOr (some m) (("An unexpected error occurred").data),
              suggestion := ("Please check the logs for more details").data }

/-- `ErrorHandler.handle(error)`: the status-bearing branch is taken when
`error.response && error.response.status` is truthy (a present, non-zero
status). -/
def handle (error : JsError) : Except JsThrow ClassifiedError :=
  match error.response with
  | some resp =>
    match resp.status with
    | some s => if s ≠ 0 then handleStatus s resp.data else handleNoStatus error
    | none => handleNoStatus error
  | none => handleNoStatus error

/-! ## Concrete inputs used in witnesses and counterexamples -/

/-- The default configured model name. -/
def gemmaModel : Str := ("gemma:2b").data

/-- A bare caught error object with none of the sniffed properties. -/
def emptyJsError : JsError :=
  { message := none, code := none, response := none, address := none,
    port := none }

/-- A transport-style rejection carrying only a message. -/
def http500Error : JsError :=
  { message := some (("Request failed with status code 500").data),
    code := none, response := none, address := none, port := none }

/-- A resolved subprocess outcome whose stdout is `LGTM`. -/
def execLGTM : ExecOutcome := .ok { stdout := ("LGTM").data, stderr := [] }

/-- A resolved structured reply whose output field is the empty string. -/
def respEmptyField : GenerateResponse :=
  { data := some { response := some [] } }

/-- A resolved structured reply whose output field is `LGTM`. -/
def respLGTM : GenerateResponse :=
  { data := some { response := some (("LGTM").data) } }

/-- A diff of exactly 8000 characters. -/
def diffAt8000 : Str := List.replicate 8000 'a'

/-- An empty pull-request context. -/
def emptyCtx : PrContext := { title := none, description := none, author := none }

/-- A prompt containing shell-significant characters but no double quote or
backtick. -/
def shellyPrompt : Str := ("review $PATH and C:\\tmp now").data

/-- An upstream 404 response carrying a data object without a message. -/
def resp404 : UpstreamResponse :=
  { status := some 404, data := some { message := none } }

/-- An upstream PR-fetch failure carrying HTTP 404. -/
def e404 : JsError :=
  { message := none, code := none, response := some resp404, address := none,
    port := none }

/-- Combined length of the literal template text of `buildReviewPrompt`. -/
def templateOverhead : Nat :=
  tmplA.length + tmplB.length + tmplC.length + tmplD.length + tmplE.length

/-! ## Helper lemmas -/

theorem hasSub_iff (p l : Str) : hasSub p l = true ↔ p <:+: l := by
  induction l with
  | nil =>
    simp [hasSub, List.isPrefixOf_iff_prefix, List.infix_nil, List.prefix_nil]
  | cons a t ih =>
    simp [hasSub, List.isPrefixOf_iff_prefix, List.infix_cons_iff, ih]

theorem hasSub_eq_false_of_not_mem {c : Char} {p l : Str}
    (hp : c ∈ p) (hl : c ∉ l) : hasSub p l = false := by
  rw [Bool.eq_false_iff]
  intro h
  exact hl ((hasSub_iff p l).mp h |>.subset hp)

/-! ## Claim theorems -/

/-- C9: `checkOllamaStatus` never throws to its caller — any transport
failure of the catalog request is recovered into
`{running: false, modelAvailable: false, error: <message>}`. -/
theorem C9_probe_recovers_transport_failure (model : Str) (e : JsError) :
    checkOllamaStatus model (.error e) =
      { running := false, modelAvailable := false, availableModels := none,
        error := e.message } := rfl

/-- C5 (counterexample): with configured model `gem:2b` and a catalog listing
only `gemma`, `modelAvailable` is computed as true although the two base
names (`gem` and `gemma`) differ — so base-name sharing is not necessary for
a match, refuting the claimed "if and only if". -/
theorem C5_counterexample :
    (checkOllamaStatus (("gem:2b").data)
        (.ok { data := { models := some [{ name := ("gemma").data }] } })).modelAvailable
      = true ∧
    baseName (("gemma").data) ≠ baseName (("gem:2b").data) := by
  decide

/-- C5 (amended): on a successful catalog probe, `modelAvailable` is true iff
some listed model's full name contains the configured model's base name as a
substring; sharing the base name is a sufficient (but not necessary)
condition, so `name:tag` still matches a locally available `name`. -/
theorem C5_modelAvailable_substring (model : Str) (models : List OllamaModel) :
    ((checkOllamaStatus model
        (.ok { data := { models := some models } })).modelAvailable = true ↔
      ∃ m ∈ models, baseName model <:+: m.name) ∧
    ((∃ m ∈ models, baseName m.name = baseName model) →
      (checkOllamaStatus model
        (.ok { data := { models := some models } })).modelAvailable = true) := by
  constructor
  · simp [checkOllamaStatus, List.any_eq_true, hasSub_iff]
  · rintro ⟨m, hm, hbase⟩
    simp only [checkOllamaStatus, Option.getD_some, List.any_eq_true]
    refine ⟨m, hm, ?_⟩
    rw [hasSub_iff, ← hbase]
    have hp : baseName m.name <+: m.name := List.takeWhile_prefix _
    exact hp.isInfix

/-- C5 (witness): the spec scenario — configured `gemma:2b`, catalog lists
`gemma` — yields `modelAvailable = true`. -/
theorem C5_witness :
    (checkOllamaStatus (("gemma:2b").data)
        (.ok { data := { models := some [{ name := ("gemma").data }] } })).modelAvailable
      = true :=
  (C5_modelAvailable_substring (("gemma:2b").data)
      [{ name := ("gemma").data }]).2
    ⟨{ name := ("gemma").data }, by decide, by decide⟩

set_option maxRecDepth 8192 in
/-- C3 (counterexample): a diff of length exactly 8000 is at the claimed
bound, yet the source truncates only strictly above 8000, so the prompt for
it carries no "(truncated)" marker — refuting the claim's "at or above the
bound" half. -/
theorem C3_counterexample :
    8000 ≤ diffAt8000.length ∧
    hasSub truncMarkerStr (buildReviewPrompt diffAt8000 emptyCtx) = false := by
  have hlen : diffAt8000.length = 8000 := by
    simp only [diffAt8000, List.length_replicate]
  constructor
  · omega
  · apply hasSub_eq_false_of_not_mem (c := '(')
    · decide
    · have hdiff : embeddedDiff diffAt8000 = diffAt8000 := by
        simp only [embeddedDiff, hlen, gt_iff_lt, Nat.lt_irrefl, if_false]
      have hformula : buildReviewPrompt diffAt8000 emptyCtx =
          tmplA ++ (tmplB ++ (tmplC ++ (tmplD ++ (diffAt8000 ++ tmplE)))) := by
        simp only [buildReviewPrompt, emptyCtx, Option.getD_none, hdiff,
          List.append_nil, List.append_assoc]
      rw [hformula]
      intro hmem
      rcases List.mem_append.mp hmem with h | hmem
      · revert h; decide
      rcases List.mem_append.mp hmem with h | hmem
      · revert h; decide
      rcases List.mem_append.mp hmem with h | hmem
      · revert h; decide
      rcases List.mem_append.mp hmem with h | hmem
      · revert h; decide
      rcases List.mem_append.mp hmem with h | h
      · rw [diffAt8000] at h
        exact absurd (List.eq_of_mem_replicate h) (by decide)
      · revert h; decide

/-- C3 (amended): a diff of length at most 8000 is embedded verbatim with no
marker appended; strictly above 8000 the embedded diff portion is exactly the
first 8000 characters, followed by the "(truncated)" marker, which is then
present in the built prompt. -/
theorem C3_truncation (d : Str) (ctx : PrContext) :
    (d.length ≤ 8000 → embeddedDiff d = d) ∧
    (8000 < d.length →
      embeddedDiff d = d.take 8000 ++ truncMarkerStr ∧
      (d.take 8000).length = 8000 ∧
      hasSub truncMarkerStr (buildReviewPrompt d ctx) = true) := by
  constructor
  · intro h
    simp [embeddedDiff, Nat.not_lt.mpr h]
  · intro h
    refine ⟨by simp [embeddedDiff, h], by simp [List.length_take]; omega, ?_⟩
    rw [hasSub_iff]
    have h1 : truncMarkerStr <:+: embeddedDiff d := by
      refine ⟨d.take 8000, [], ?_⟩
      simp [embeddedDiff, h]
    have h2 : embeddedDiff d <:+: buildReviewPrompt d ctx := by
      refine ⟨tmplA ++ ctx.title.getD [] ++ tmplB ++ ctx.author.getD [] ++
        tmplC ++ ctx.description.getD [] ++ tmplD, tmplE, ?_⟩
      simp [buildReviewPrompt, List.append_assoc]
    exact h1.trans h2

/-- C3 (witness): a 3-character diff is embedded verbatim, and a
8001-character diff produces a prompt containing the marker. -/
theorem C3_witness :
    embeddedDiff (List.replicate 3 'a') = List.replicate 3 'a' ∧
    hasSub truncMarkerStr
      (buildReviewPrompt (List.replicate 8001 'a') emptyCtx) = true := by
  constructor
  · exact (C3_truncation (List.replicate 3 'a') emptyCtx).1
      (by simp only [List.length_replicate]; omega)
  · exact ((C3_truncation (List.replicate 8001 'a') emptyCtx).2
      (by simp only [List.length_replicate]; omega)).2.2

/-- The interpolated title occupies part of the prompt, so the prompt is at
least as long as the title. -/
theorem title_length_le_prompt (d : Str) (ctx : PrContext) :
    (ctx.title.getD []).length ≤ (buildReviewPrompt d ctx).length := by
  simp [buildReviewPrompt, List.length_append]
  omega

/-- C4 (counterexample): no fixed constant bounds the prompt length by
8000 plus that constant — a context whose title is longer than the proposed
bound already defeats it, since title, author and description are
interpolated untruncated. -/
theorem C4_counterexample :
    ¬ ∃ overhead : Nat, ∀ (d : Str) (ctx : PrContext),
        (buildReviewPrompt d ctx).length ≤ 8000 + overhead := by
  rintro ⟨overhead, h⟩
  have h1 := h []
    { title := some (List.replicate (8001 + overhead) 'a'),
      description := none, author := none }
  have h2 := title_length_le_prompt []
    { title := some (List.replicate (8001 + overhead) 'a'),
      description := none, author := none }
  simp only [Option.getD_some, List.length_replicate] at h2
  omega

/-- C4 (amended): the prompt length is bounded by the truncation bound plus
the marker length plus the fixed template overhead plus the lengths of the
interpolated title, description and author. -/
theorem C4_prompt_length_bound (d : Str) (ctx : PrContext) :
    (buildReviewPrompt d ctx).length ≤
      8000 + truncMarkerStr.length + templateOverhead +
        (ctx.title.getD []).length + (ctx.description.getD []).length +
        (ctx.author.getD []).length := by
  have hd : (embeddedDiff d).length ≤ 8000 + truncMarkerStr.length := by
    by_cases h : d.length > 8000
    · simp only [embeddedDiff, if_pos h, List.length_append, List.length_take]
      omega
    · simp only [embeddedDiff, if_neg h]
      omega
  simp only [buildReviewPrompt, templateOverhead, List.length_append]
  omega

/-- C1 (counterexample): a resolved structured reply whose output field is
empty is a primary-path failure, yet `generateReview` returns the
else-branch failure `noOllamaResponse` and does not attempt the CLI
fallback, which would have succeeded here with stdout `LGTM`. -/
theorem C1_counterexample :
    generateReview gemmaModel (.ok respEmptyField) execLGTM =
      noOllamaResponse ∧
    (generateReviewCLI gemmaModel execLGTM).success = true ∧
    generateReview gemmaModel (.ok respEmptyField) execLGTM ≠
      generateReviewCLI gemmaModel execLGTM := by
  refine ⟨rfl, by decide, by decide⟩

/-- C1 (amended): the CLI fallback is attempted exactly when the primary
structured call throws (network error or non-2xx rejection) — the result is
then the fallback's result; a resolved reply with a malformed body or an
empty/absent output field instead yields `noOllamaResponse` without the
fallback being attempted. -/
theorem C1_fallback_on_throw (model : Str) (e : JsError) (exec : ExecOutcome)
    (resp : GenerateResponse) :
    (generateReview model (.error e) exec = generateReviewCLI model exec) ∧
    ((∀ body r, resp.data = some body → body.response = some r → r = []) →
      generateReview model (.ok resp) exec = noOllamaResponse) := by
  refine ⟨rfl, ?_⟩
  intro h
  match hd : resp.data with
  | none => simp [generateReview, hd]
  | some body =>
    match hr : body.response with
    | none => simp [generateReview, hd, hr]
    | some r =>
      have hre := h body r hd hr
      simp [generateReview, hd, hr, hre]

/-- C1 (witness): an HTTP 500 rejection routes to the CLI fallback, whose
`LGTM` stdout becomes the successful result; an empty output field yields the
terminal `noOllamaResponse`. -/
theorem C1_witness :
    (generateReview gemmaModel (.error http500Error) execLGTM =
      generateReviewCLI gemmaModel execLGTM) ∧
    generateReview gemmaModel (.ok respEmptyField) execLGTM =
      noOllamaResponse :=
  ⟨(C1_fallback_on_throw gemmaModel http500Error execLGTM respEmptyField).1,
   (C1_fallback_on_throw gemmaModel http500Error execLGTM respEmptyField).2
     (by
       intro body r h1 h2
       injection h1 with h1
       subst h1
       injection h2 with h2
       exact h2.symm)⟩

/-- C2 (counterexample): a successful primary-path result carries no
`method` property at all — it is not `"API"` as claimed. -/
theorem C2_counterexample :
    (generateReview gemmaModel (.ok respLGTM) execLGTM).success = true ∧
    (generateReview gemmaModel (.ok respLGTM) execLGTM).method = none ∧
    (generateReview gemmaModel (.ok respLGTM) execLGTM).method ≠
      some (("API").data) := by
  decide

/-- C2 (amended): a successful primary-path result carries no `method`
property (`undefined`), while a successful CLI-fallback result carries
`method = "CLI"`. -/
theorem C2_method_field (model : Str) (resp : GenerateResponse)
    (body : GenerateData) (r : Str) (e : JsError) (res : ExecResult)
    (exec : ExecOutcome) (h1 : resp.data = some body)
    (h2 : body.response = some r) (h3 : r ≠ []) :
    ((generateReview model (.ok resp) exec).success = true ∧
     (generateReview model (.ok resp) exec).method = none) ∧
    (¬ (res.stderr ≠ [] ∧ res.stdout = []) →
      (generateReview model (.error e) (.ok res)).success = true ∧
      (generateReview model (.error e) (.ok res)).method =
        some (("CLI").data)) := by
  constructor
  · simp [generateReview, h1, h2, h3]
  · intro h
    simp [generateReview, generateReviewCLI, h]

/-- C2 (witness): the amended claim at concrete inputs — primary success has
no method, fallback success has method `"CLI"`. -/
theorem C2_witness :
    ((generateReview gemmaModel (.ok respLGTM) execLGTM).method = none) ∧
    ((generateReview gemmaModel (.error http500Error) execLGTM).method =
      some (("CLI").data)) :=
  ⟨(C2_method_field gemmaModel respLGTM { response := some (("LGTM").data) }
      (("LGTM").data) http500Error { stdout := ("LGTM").data, stderr := [] }
      execLGTM rfl rfl (by decide)).1.2,
   ((C2_method_field gemmaModel respLGTM { response := some (("LGTM").data) }
      (("LGTM").data) http500Error { stdout := ("LGTM").data, stderr := [] }
      execLGTM rfl rfl (by decide)).2 (by decide)).2⟩

/-- C8 (counterexample): a resolved subprocess with empty stdout and empty
stderr (zero exit) yields a success result with an empty review, although
stdout is empty — refuting "a successful result is returned only when stdout
is non-empty". -/
theorem C8_counterexample :
    generateReviewCLI gemmaModel (.ok { stdout := [], stderr := [] }) =
      { success := true, review := some [], model := some gemmaModel,
        method := some (("CLI").data), error := none } := by
  decide

/-- C8 (amended): a resolved subprocess yields success iff it is not the case
that stderr is non-empty while stdout is empty (so empty stdout with empty
stderr still succeeds, with an empty review); stderr with empty stdout yields
`{success: false, error: stderr}`; a rejection yields
`{success: false, error: <exception message>}`; no further fallback exists in
either failure case. -/
theorem C8_cli_result (model : Str) (res : ExecResult) (e : JsError) :
    ((generateReviewCLI model (.ok res)).success = true ↔
      ¬ (res.stderr ≠ [] ∧ res.stdout = [])) ∧
    (res.stderr ≠ [] → res.stdout = [] →
      generateReviewCLI model (.ok res) =
        { success := false, review := none, model := none, method := none,
          error := some res.stderr }) ∧
    ((generateReviewCLI model (.ok res)).success = true →
      generateReviewCLI model (.ok res) =
        { success := true, review := some (jsTrim res.stdout),
          model := some model, method := some (("CLI").data),
          error := none }) ∧
    (generateReviewCLI model (.error e) =
      { success := false, review := none, model := none, method := none,
        error := e.message }) := by
  by_cases h : res.stderr ≠ [] ∧ res.stdout = []
  · refine ⟨?_, ?_, ?_, rfl⟩
    · simp [generateReviewCLI, h]
    · intro _ _
      simp [generateReviewCLI, h]
    · intro hs
      exfalso
      simp [generateReviewCLI, h] at hs
  · refine ⟨?_, ?_, ?_, rfl⟩
    · simp [generateReviewCLI, h]
    · intro h1 h2
      exact absurd ⟨h1, h2⟩ h
    · intro _
      simp [generateReviewCLI, h]

/-- C8 (witness): the spec scenario — stdout `LGTM` succeeds with the trimmed
review and method `"CLI"`; stderr output with empty stdout is a terminal
failure carrying stderr. -/
theorem C8_witness :
    generateReviewCLI gemmaModel execLGTM =
      { success := true, review := some (jsTrim (("LGTM").data)),
        model := some gemmaModel, method := some (("CLI").data),
        error := none } ∧
    generateReviewCLI gemmaModel
        (.ok { stdout := [], stderr := ("model not found").data }) =
      { success := false, review := none, model := none, method := none,
        error := some (("model not found").data) } :=
  ⟨(C8_cli_result gemmaModel { stdout := ("LGTM").data, stderr := [] }
      emptyJsError).2.2.1 (by decide),
   (C8_cli_result gemmaModel { stdout := [], stderr := ("model not found").data }
      emptyJsError).2.1 (by decide) (by decide)⟩

/-- `replaceBq` distributes over concatenation. -/
theorem replaceBq_append (l₁ l₂ : Str) :
    replaceBq (l₁ ++ l₂) = replaceBq l₁ ++ replaceBq l₂ := by
  induction l₁ with
  | nil => rfl
  | cons a t ih => simp [replaceBq, ih, List.append_assoc]

/-- The second replacement applied to the first replacement's image of one
character equals the single-pass escaping of that character. -/
theorem replaceBq_escChar (a : Char) :
    replaceBq (if a = dq then [bs, dq] else [a]) = escSpecChar a := by
  by_cases h1 : a = dq
  · subst h1
    decide
  · by_cases h2 : a = bq
    · subst h2
      decide
    · simp [replaceBq, escSpecChar, h1, h2]

/-- The sequential replacements equal the single-pass spec escaping. -/
theorem escapedPrompt_eq_escapeSpec (p : Str) :
    escapedPrompt p = escapeSpec p := by
  induction p with
  | nil => rfl
  | cons a t ih =>
    show replaceBq (replaceDq (a :: t)) = escapeSpec (a :: t)
    rw [replaceDq, replaceBq_append, replaceBq_escChar]
    rw [show replaceBq (replaceDq t) = escapedPrompt t from rfl, ih]
    rfl

/-- Single-pass escaping is the identity on strings free of double quotes and
backticks. -/
theorem escapeSpec_id (p : Str) (h : ∀ c ∈ p, c ≠ dq ∧ c ≠ bq) :
    escapeSpec p = p := by
  induction p with
  | nil => rfl
  | cons a t ih =>
    have ha := h a (List.mem_cons_self a t)
    simp only [escapeSpec, escSpecChar, ha.1, ha.2, if_false,
      List.singleton_append, List.cons.injEq, true_and]
    exact ih (fun c hc => h c (List.mem_cons_of_mem a hc))

/-- C10: the source's sequential replacements escape exactly double quotes
and backticks — they coincide with the single-pass per-character escaping,
every other character (including `$` and backslash) appears verbatim, and the
command wraps the escaped prompt in double quotes after
`ollama run <model> `. -/
theorem C10_escaping (p model : Str) :
    escapedPrompt p = escapeSpec p ∧
    ((∀ c ∈ p, c ≠ dq ∧ c ≠ bq) → escapedPrompt p = p) ∧
    cliCommand model p =
      ("ollama run ").data ++ model ++ (" ").data ++ [dq] ++
        escapeSpec p ++ [dq] := by
  refine ⟨escapedPrompt_eq_escapeSpec p, ?_, ?_⟩
  · intro h
    rw [escapedPrompt_eq_escapeSpec p, escapeSpec_id p h]
  · rw [cliCommand, escapedPrompt_eq_escapeSpec p]

/-- C10 (witness): a prompt containing `$PATH` and a backslash but no quote
or backtick appears verbatim, double-quote-wrapped, in the command. -/
theorem C10_witness :
    cliCommand gemmaModel shellyPrompt =
      ("ollama run ").data ++ gemmaModel ++ (" ").data ++ [dq] ++
        shellyPrompt ++ [dq] := by
  have h := C10_escaping shellyPrompt gemmaModel
  rw [h.2.2, ← h.1, h.2.1 (by decide)]

/-- C6: the classifier is not total — evaluated at a bare error object with
no response, no code and no message, the short-circuited timeout check
dereferences `error.message` and throws a `TypeError`, instead of falling
through to the unknown-error result. -/
theorem C6_handle_throws_on_messageless :
    handle emptyJsError = .error .typeError := rfl

/-- C7: for a failure carrying a truthy upstream HTTP status and a data
object, the classifier maps, in strict priority order: 401 to the
auth-failure GITHUB_AUTH; 403 with truthy rate-limit wording to RATE_LIMIT;
any other 403 to INVALID_REPO and 404 to INVALID_PR (the two
resource-not-found kinds — the 404 suggestion mentions verifying the pull
request number); 422 to the invalid-request INVALID_REPO message; and any
other status to the generic NETWORK_ERROR carrying the status code and the
upstream message. -/
theorem C7_status_mapping (e : JsError) (resp : UpstreamResponse) (s : Nat)
    (d : UpstreamData) (hresp : e.response = some resp)
    (hs : resp.status = some s) (hs0 : s ≠ 0) (hd : resp.data = some d) :
    (s = 401 → handle e = .ok (createError .GITHUB_AUTH
        (("Invalid or expired GitHub token. Please re-authenticate.").data)
        none)) ∧
    (s = 403 → rateLimitCheck d.message = true →
      handle e = .ok (createError .RATE_LIMIT
        (d.message.getD [] ++ ((". Try again later.").data)) none)) ∧
    (s = 403 → rateLimitCheck d.message = false →
      handle e = .ok (createError .INVALID_REPO
        (("Access denied or repository not found.").data) none)) ∧
    (s = 404 →
      handle e = .ok (createError .INVALID_PR
        (("Pull request or repository not found.").data) none) ∧
      hasSub (("pull request number").data) (getSuggestion .INVALID_PR)
        = true) ∧
    (s = 422 → handle e = .ok (createError .INVALID_REPO
        ((("GitHub API error: ").data) ++
          jsOr d.message (("Invalid request").data)) none)) ∧
    (s ≠ 401 → s ≠ 403 → s ≠ 404 → s ≠ 422 →
      handle e = .ok (createError .NETWORK_ERROR
        ((("GitHub API error (").data) ++ (Nat.repr s).data ++
          (("): ").data) ++ jsOr d.message (("Unknown error").data))
        none)) := by
  have hh : handle e = handleStatus s (some d) := by
    simp [handle, hresp, hs, hd, hs0]
  refine ⟨?_, ?_, ?_, ?_, ?_, ?_⟩
  · rintro rfl
    rw [hh]
    simp [handleStatus]
  · rintro rfl hw
    rw [hh]
    simp [handleStatus, hw]
  · rintro rfl hw
    rw [hh]
    simp [handleStatus, hw]
  · rintro rfl
    refine ⟨?_, by decide⟩
    rw [hh]
    simp [handleStatus]
  · rintro rfl
    rw [hh]
    simp [handleStatus]
  · intro h1 h2 h3 h4
    rw [hh]
    simp [handleStatus, h1, h2, h3, h4]

/-- C7 (witness): an upstream 404 with a data object yields INVALID_PR, with
the suggestion mentioning the pull request number. -/
theorem C7_witness :
    handle e404 = .ok (createError .INVALID_PR
      (("Pull request or repository not found.").data) none) ∧
    hasSub (("pull request number").data) (getSuggestion .INVALID_PR)
      = true :=
  (C7_status_mapping e404 resp404 404 { message := none } rfl rfl
    (by decide) rfl).2.2.2.1 rfl
